import Mathlib

/-!
Verification development for the anima-project assistant backend.

The definitions below are a shallow embedding of the repository's Python
sources, principally `src/mcp_server.py` (response parsing, tool dispatch,
the per-turn orchestrator), `src/ai_brain/function_calling.py` (the tool
registry schema), `src/ai_brain/groq_integration.py` (the model
collaborator), and `src/tools/tools_app.py` (the process supervisor and the
weather endpoint).  External transports (HTTP, process spawn) are passed in
as explicit function or outcome parameters; everything else follows the
Python line by line.
-/

set_option maxRecDepth 10000

namespace Anima

/-- JSON values as produced by Python's `json.loads`: objects keep their
key/value pairs in textual order (Python dicts preserve insertion order;
duplicate keys collapse to the last occurrence, which lookups below honour).
Numbers are represented exactly as rationals. -/
inductive JsonVal where
  | null : JsonVal
  | bool (b : Bool) : JsonVal
  | num (q : Rat) : JsonVal
  | str (s : String) : JsonVal
  | arr (xs : List JsonVal) : JsonVal
  | obj (kvs : List (String × JsonVal)) : JsonVal
  deriving Repr

/-- Python `dict.__contains__` / `in` on a decoded JSON object. -/
def hasKey (kvs : List (String × JsonVal)) (k : String) : Bool :=
  kvs.any (fun p => p.1 == k)

/-- Python `dict.__getitem__` semantics on the association list: with
duplicate keys the last occurrence wins, as in a dict built by repeated
insertion during JSON decoding. -/
def pyLookup (kvs : List (String × JsonVal)) (k : String) : Option JsonVal :=
  (kvs.reverse.find? (fun p => p.1 == k)).map (fun p => p.2)

/-- Python `dict.get(k, d)`. -/
def pyGet (kvs : List (String × JsonVal)) (k : String) (d : JsonVal) : JsonVal :=
  (pyLookup kvs k).getD d

/-- Python truthiness of a JSON value (`bool(x)`). -/
def pyTruthy : JsonVal → Bool
  | .null => false
  | .bool b => b
  | .num q => q != 0
  | .str s => s != ""
  | .arr xs => !xs.isEmpty
  | .obj kvs => !kvs.isEmpty

/-- Python `a or b` on JSON values. -/
def pyOr (a b : JsonVal) : JsonVal :=
  if pyTruthy a then a else b

/-! ## Strict JSON decoding (model of `json.loads`) -/

/-- JSON insignificant whitespace (also what Python's decoder skips). -/
def isJsonWs (c : Char) : Bool :=
  c == ' ' || c == '\t' || c == '\n' || c == '\r'

/-- Skip JSON whitespace. -/
def skipWs (cs : List Char) : List Char :=
  cs.dropWhile isJsonWs

/-- Value of one hexadecimal digit (working on the code point), `none` for
any other character. -/
def hexVal (c : Char) : Option Nat :=
  let n := c.toNat
  if 48 ≤ n && n ≤ 57 then some (n - 48)
  else if 97 ≤ n && n ≤ 102 then some (n - 87)
  else if 65 ≤ n && n ≤ 70 then some (n - 55)
  else none

/-- Decode the body of a JSON string literal, the opening quote already
consumed.  Handles the standard escapes; a raw control character is a
decode error, as in strict-mode `json.loads`. -/
def jString : List Char → Option (String × List Char)
  | [] => none
  | '"' :: rest => some ("", rest)
  | '\\' :: esc => match esc with
    | '"' :: rest => (jString rest).map (fun p => (⟨'"' :: p.1.data⟩, p.2))
    | '\\' :: rest => (jString rest).map (fun p => (⟨'\\' :: p.1.data⟩, p.2))
    | '/' :: rest => (jString rest).map (fun p => (⟨'/' :: p.1.data⟩, p.2))
    | 'b' :: rest => (jString rest).map (fun p => (⟨'\x08' :: p.1.data⟩, p.2))
    | 'f' :: rest => (jString rest).map (fun p => (⟨'\x0c' :: p.1.data⟩, p.2))
    | 'n' :: rest => (jString rest).map (fun p => (⟨'\n' :: p.1.data⟩, p.2))
    | 'r' :: rest => (jString rest).map (fun p => (⟨'\r' :: p.1.data⟩, p.2))
    | 't' :: rest => (jString rest).map (fun p => (⟨'\t' :: p.1.data⟩, p.2))
    | 'u' :: h1 :: h2 :: h3 :: h4 :: rest =>
      match hexVal h1, hexVal h2, hexVal h3, hexVal h4 with
      | some a, some b, some c, some d =>
        let n := a * 4096 + b * 256 + c * 16 + d
        (jString rest).map (fun p => (⟨Char.ofNat n :: p.1.data⟩, p.2))
      | _, _, _, _ => none
    | _ => none
  | c :: rest =>
    if c.toNat < 0x20 then none
    else (jString rest).map (fun p => (⟨c :: p.1.data⟩, p.2))

/-- Numeric value of a digit run (most significant first). -/
def digitsToNat : List Char → Nat → Nat
  | [], acc => acc
  | d :: ds, acc => digitsToNat ds (10 * acc + (d.toNat - 48))

/-- Decode a JSON number (strict grammar: no leading zeros, a fraction needs
digits, an exponent needs digits), returning its exact rational value. -/
def jNumber (cs : List Char) : Option (Rat × List Char) :=
  let (neg, cs1) := match cs with
    | '-' :: rest => (true, rest)
    | _ => (false, cs)
  let intDigits := cs1.takeWhile Char.isDigit
  let cs2 := cs1.dropWhile Char.isDigit
  let intOk := match intDigits with
    | [] => false
    | ['0'] => true
    | '0' :: _ :: _ => false
    | _ => true
  if !intOk then none else
  let (fracDigits, cs3) := match cs2 with
    | '.' :: rest =>
      (rest.takeWhile Char.isDigit, rest.dropWhile Char.isDigit)
    | _ => ([], cs2)
  let fracPresent := match cs2 with
    | '.' :: _ => true
    | _ => false
  if fracPresent && fracDigits.isEmpty then none else
  let (expSign, expDigits, cs4) := match cs3 with
    | 'e' :: rest | 'E' :: rest =>
      match rest with
      | '-' :: rest2 => (-1, rest2.takeWhile Char.isDigit, rest2.dropWhile Char.isDigit)
      | '+' :: rest2 => (1, rest2.takeWhile Char.isDigit, rest2.dropWhile Char.isDigit)
      | _ => ((1 : Int), rest.takeWhile Char.isDigit, rest.dropWhile Char.isDigit)
    | _ => (1, [], cs3)
  let expPresent := match cs3 with
    | 'e' :: _ | 'E' :: _ => true
    | _ => false
  if expPresent && expDigits.isEmpty then none else
  let mantissa : Int := Int.ofNat (digitsToNat (intDigits ++ fracDigits) 0)
  let signedMantissa := if neg then -mantissa else mantissa
  let scale : Int :=
    expSign * Int.ofNat (digitsToNat expDigits 0) - Int.ofNat fracDigits.length
  let value := if 0 ≤ scale then mkRat (signedMantissa * (10 : Int) ^ scale.toNat) 1
               else mkRat signedMantissa ((10 : Nat) ^ (-scale).toNat)
  some (value, cs4)

mutual

/-- Decode one JSON value (fuel-bounded recursive descent). -/
def jValue (fuel : Nat) (cs : List Char) : Option (JsonVal × List Char) :=
  match fuel with
  | 0 => none
  | fuel + 1 =>
    match skipWs cs with
    | [] => none
    | '{' :: rest =>
      match skipWs rest with
      | '}' :: rest2 => some (.obj [], rest2)
      | rest2 => (jMembers fuel rest2).map (fun p => (.obj p.1, p.2))
    | '[' :: rest =>
      match skipWs rest with
      | ']' :: rest2 => some (.arr [], rest2)
      | rest2 => (jItems fuel rest2).map (fun p => (.arr p.1, p.2))
    | '"' :: rest => (jString rest).map (fun p => (.str p.1, p.2))
    | 't' :: 'r' :: 'u' :: 'e' :: rest => some (.bool true, rest)
    | 'f' :: 'a' :: 'l' :: 's' :: 'e' :: rest => some (.bool false, rest)
    | 'n' :: 'u' :: 'l' :: 'l' :: rest => some (.null, rest)
    | cs' => (jNumber cs').map (fun p => (.num p.1, p.2))

/-- Decode the members of a JSON object after `{` (first member pending). -/
def jMembers (fuel : Nat) (cs : List Char) : Option (List (String × JsonVal) × List Char) :=
  match fuel with
  | 0 => none
  | fuel + 1 =>
    match skipWs cs with
    | '"' :: rest =>
      match jString rest with
      | none => none
      | some (key, rest2) =>
        match skipWs rest2 with
        | ':' :: rest3 =>
          match jValue fuel rest3 with
          | none => none
          | some (v, rest4) =>
            match skipWs rest4 with
            | ',' :: rest5 =>
              (jMembers fuel rest5).map (fun p => ((key, v) :: p.1, p.2))
            | '}' :: rest5 => some ([(key, v)], rest5)
            | _ => none
        | _ => none
    | _ => none

/-- Decode the items of a JSON array after `[` (first item pending). -/
def jItems (fuel : Nat) (cs : List Char) : Option (List JsonVal × List Char) :=
  match fuel with
  | 0 => none
  | fuel + 1 =>
    match jValue fuel cs with
    | none => none
    | some (v, rest) =>
      match skipWs rest with
      | ',' :: rest2 => (jItems fuel rest2).map (fun p => (v :: p.1, p.2))
      | ']' :: rest2 => some ([v], rest2)
      | _ => none

end

/-- Strict decode of a whole document: one JSON value, surrounding
whitespace allowed, anything trailing is an error — mirroring `json.loads`,
which raises on extra data. -/
def jsonDecode (s : String) : Option JsonVal :=
  match jValue (2 * s.length + 8) s.data with
  | some (v, rest) => if skipWs rest = [] then some v else none
  | none => none

/-! ## `parse_tool_call` (src/mcp_server.py lines 104-128) -/

/-- Whitespace stripped by Python `str.strip()` (ASCII range). -/
def isPyWs (c : Char) : Bool :=
  c == ' ' || c == '\t' || c == '\n' || c == '\r' || c == '\x0b' || c == '\x0c'

/-- Python `str.strip()` on a character list. -/
def pyStripL (cs : List Char) : List Char :=
  ((cs.dropWhile isPyWs).reverse.dropWhile isPyWs).reverse

/-- Python `str.strip()`. -/
def pyStrip (s : String) : String :=
  ⟨pyStripL s.data⟩

/-- Python `str.split("\n")`. -/
def splitLines : List Char → List (List Char)
  | [] => [[]]
  | '\n' :: rest => [] :: splitLines rest
  | c :: rest =>
    match splitLines rest with
    | l :: ls => (c :: l) :: ls
    | [] => [[c]]

/-- Python `"\n".join(lines)`. -/
def joinLines : List (List Char) → List Char
  | [] => []
  | [l] => l
  | l :: ls => l ++ '\n' :: joinLines ls

/-- Python `line.startswith("```")`. -/
def startsWithFence : List Char → Bool
  | '`' :: '`' :: '`' :: _ => true
  | _ => false

/-- The markdown-fence extraction loop of `parse_tool_call`: split on
newlines, toggle an in-block flag at each line starting with three
backticks (dropping that line), keep only in-block lines, and rejoin. -/
def stripFences (cs : List Char) : List Char :=
  let lines := splitLines cs
  let step := fun (st : Bool × List (List Char)) (line : List Char) =>
    if startsWithFence line then (!st.1, st.2)
    else if st.1 then (st.1, st.2 ++ [line]) else st
  let kept := (lines.foldl step (false, [])).2
  pyStripL (joinLines kept)

/-- The preprocessing of `parse_tool_call` before decoding: strip, then
undo a markdown fence when the text starts with one. -/
def preprocessResponse (cs : List Char) : List Char :=
  let r := pyStripL cs
  if startsWithFence r then stripFences r else r

/-- `parse_tool_call(response)`: strip, undo a markdown fence when the text
starts with one, strictly decode, and return the decoded mapping exactly
when it is a JSON object containing a "tool" key; every other outcome is
`none` (a plain reply).  Total by construction. -/
def parse_tool_call (response : String) : Option (List (String × JsonVal)) :=
  match jsonDecode ⟨preprocessResponse response.data⟩ with
  | some (.obj kvs) => if hasKey kvs "tool" then some kvs else none
  | _ => none

/-! ## Tool registry schema (src/ai_brain/function_calling.py) -/

/-- One declared parameter of a tool: its JSON-schema type and declared
default (the human-readable description strings of the source are omitted
as inert text). -/
structure ParamDecl where
  type : String
  default : Option JsonVal
  deriving Repr

/-- One registered tool descriptor. -/
structure ToolDecl where
  name : String
  properties : List (String × ParamDecl)
  required : List String
  deriving Repr

/-- The seven descriptors appended to `llm_tools.schema` in
`function_calling.py`, in registration order. -/
def llm_tools_schema : List ToolDecl :=
  [ ⟨"get_gmail", [], []⟩,
    ⟨"get_outlook", [], []⟩,
    ⟨"get_tasks", [], []⟩,
    ⟨"get_calendar_events", [], []⟩,
    ⟨"get_whatsapp_messages", [], []⟩,
    ⟨"search",
      [("query", ⟨"string", none⟩),
       ("max_results", ⟨"integer", some (.num 3)⟩),
       ("formatted", ⟨"boolean", some (.bool true)⟩)],
      ["query"]⟩,
    ⟨"get_weather_info",
      [("city", ⟨"string", none⟩),
       ("days", ⟨"integer", some (.num 1)⟩),
       ("formatted", ⟨"boolean", some (.bool false)⟩)],
      ["city"]⟩ ]

/-- The default declared for a parameter in the registered schema. -/
def schemaDefault (tool param : String) : Option JsonVal :=
  match llm_tools_schema.find? (fun t => t.name == tool) with
  | some t =>
    match t.properties.find? (fun p => p.1 == param) with
    | some pd => pd.2.default
    | none => none
  | none => none

/-- The tool names handled by `execute_tool` (everything else falls through
to its "Unknown tool" branch). -/
def registeredToolNames : List String :=
  ["get_gmail", "get_outlook", "get_tasks", "get_calendar_events",
   "get_whatsapp_messages", "get_weather_info", "search"]

/-! ## Tool dispatch (`execute_tool`, src/mcp_server.py lines 131-206) -/

/-- Python `str()` of a value as used in f-strings.  Only the string case
is exercised by the claims; the renderings of the other cases abstract
Python's `repr`. -/
def pyStr : JsonVal → String
  | .str s => s
  | .bool true => "True"
  | .bool false => "False"
  | .null => "None"
  | .num q => toString q.num
  | .arr _ => "[...]"
  | .obj _ => "\x7b...\x7d"

/-- Python `==` between an arbitrary value and a string literal: true only
for an equal string. -/
def jsonEqStr (v : JsonVal) (s : String) : Bool :=
  match v with
  | .str t => t == s
  | _ => false

/-- Python `needle in haystack` on strings (substring test). -/
def startsWithL : List Char → List Char → Bool
  | [], _ => true
  | _ :: _, [] => false
  | n :: ns, h :: hs => n == h && startsWithL ns hs

/-- Substring membership on character lists. -/
def containsSub : List Char → List Char → Bool
  | needle, [] => needle.isEmpty
  | needle, c :: hs => startsWithL needle (c :: hs) || containsSub needle hs

/-- Python `value.get(...)` on something that must be a dict; any other
value raises `AttributeError`, surfacing here as the exception carried by
`Except`. -/
def asObj : JsonVal → Except String (List (String × JsonVal))
  | .obj kvs => .ok kvs
  | _ => .error "AttributeError: value has no attribute get"

/-- The per-mail reduction in the `get_gmail` / `get_outlook` branches:
`subject = mail.get("subject") or mail.get("title")`,
`sender = mail.get("sender") or mail.get("senderName") or mail.get("from")`,
collected as a two-field dict.  A non-dict item raises. -/
def filterMail : JsonVal → Except String JsonVal
  | .obj kvs =>
    .ok (.obj
      [("subject", pyOr (pyGet kvs "subject" .null) (pyGet kvs "title" .null)),
       ("sender", pyOr (pyOr (pyGet kvs "sender" .null) (pyGet kvs "senderName" .null))
         (pyGet kvs "from" .null))])
  | _ => .error "AttributeError: mail item has no attribute get"

/-- The `for mail in data["emails"]` loop, in list order. -/
def filterMails : List JsonVal → Except String (List JsonVal)
  | [] => .ok []
  | m :: ms => do
    let o ← filterMail m
    let rest ← filterMails ms
    pure (o :: rest)

/-- The whole filtering loop over `data["emails"]`: when the "emails" key
is absent (or `data` is a container not holding it) the filtered list stays
empty; a "emails" value that is not a list, or a `data` on which `in`
raises, surfaces as an exception. -/
def filterEmails (data : JsonVal) : Except String (List JsonVal) :=
  match data with
  | .obj kvs =>
    match pyLookup kvs "emails" with
    | none => .ok []
    | some (.arr mails) => filterMails mails
    | some _ => .error "TypeError: emails value is not iterable as mails"
  | .arr xs =>
    if xs.any (fun v => jsonEqStr v "emails") then
      .error "TypeError: list indices must be integers"
    else .ok []
  | .str s =>
    if containsSub "emails".data s.data then
      .error "TypeError: string indices must be integers"
    else .ok []
  | _ => .error "TypeError: argument is not iterable"

/-- A tool-collaborator HTTP request: the path under the mounted tools app
and the query parameters (`urlencode` plus string formatting of the URL is
abstracted into this structured form). -/
structure Request where
  path : String
  query : List (String × JsonVal)
  deriving Repr

/-- The body of `execute_tool`'s `try:` block.  `http` stands for
`client.get` composed with `resp.json()`; a transport failure or a raised
exception is the `Except.error` case. -/
def execute_tool_core (http : Request → Except String JsonVal)
    (tool_name : JsonVal) (parameters : JsonVal) : Except String JsonVal :=
  if jsonEqStr tool_name "get_gmail" then do
    let data ← http ⟨"/tools/gmail", []⟩
    let filtered ← filterEmails data
    pure (.arr filtered)
  else if jsonEqStr tool_name "get_outlook" then do
    let data ← http ⟨"/tools/outlook", []⟩
    let filtered ← filterEmails data
    pure (.arr filtered)
  else if jsonEqStr tool_name "get_tasks" then do
    let data ← http ⟨"/tools/outlook", []⟩
    let kvs ← asObj data
    pure (.obj [("tasks", pyGet kvs "tasks" (.arr []))])
  else if jsonEqStr tool_name "get_calendar_events" then do
    let data ← http ⟨"/tools/outlook", []⟩
    let kvs ← asObj data
    pure (.obj [("events", pyGet kvs "events" (.arr []))])
  else if jsonEqStr tool_name "get_whatsapp_messages" then do
    http ⟨"/tools/whatsapp", []⟩
  else if jsonEqStr tool_name "get_weather_info" then do
    let pkvs ← asObj parameters
    let city := pyGet pkvs "city" .null
    let days := pyGet pkvs "days" (.num 1)
    let formatted := pyGet pkvs "formatted" (.bool true)
    if !pyTruthy city then
      pure (.obj [("error", .str "City parameter is required for weather info")])
    else
      http ⟨"/tools/weather", [("city", city), ("days", days), ("formatted", formatted)]⟩
  else if jsonEqStr tool_name "search" then do
    let pkvs ← asObj parameters
    let query := pyGet pkvs "query" .null
    let max_results := pyGet pkvs "max_results" (.num 3)
    let formatted := pyGet pkvs "formatted" (.bool true)
    let region := pyGet pkvs "region" (.str "us-en")
    if !pyTruthy query then
      pure (.obj [("error", .str "Query parameter is required for search")])
    else
      http ⟨"/tools/search",
        [("query", query), ("max_results", max_results),
         ("formatted", formatted), ("region", region)]⟩
  else
    pure (.obj [("error", .str ("Unknown tool: " ++ pyStr tool_name))])

/-- `execute_tool(tool_name, parameters, base_url)`: the `try/except` wrapper
turning any exception into an error payload, so the function always returns
a value. -/
def execute_tool (http : Request → Except String JsonVal)
    (tool_name : JsonVal) (parameters : JsonVal) : JsonVal :=
  match execute_tool_core http tool_name parameters with
  | .ok v => v
  | .error e => .obj [("error", .str ("Tool execution failed: " ++ e))]

/-! ## Model collaborator (src/ai_brain/groq_integration.py) -/

/-- The outcome of one `requests.post` to the Groq endpoint: either the
request raised (connection failure — and, with no timeout set, never a
timeout), or a response with a status code, decoded JSON body and raw
text. -/
inductive GroqOutcome where
  | exn (msg : String)
  | resp (status : Nat) (body : JsonVal) (text : String)
  deriving Repr

/-- The HTTP call `get_response` issues (groq_integration.py line 39):
`requests.post(self.base_url, headers=self.headers, json=payload)` — note
the absent `timeout` argument, recorded here as `none` (requests waits
indefinitely by default). -/
structure HttpPostCall where
  url : String
  timeoutSeconds : Option Nat
  deriving Repr

/-- The post call as written in the source. -/
def groq_post_call : HttpPostCall :=
  ⟨"https://api.groq.com/openai/v1/chat/completions", none⟩

/-- Extraction of `data["choices"][0]["message"]["content"]` with
`KeyError`/`IndexError` degraded to the fallback text, as in the source's
`except (KeyError, IndexError)`.  (Shapes that would raise an uncaught
`TypeError` in Python are folded into the same fallback; no claim depends
on them.) -/
def extractContent (body : JsonVal) : String :=
  match body with
  | .obj kvs =>
    match pyLookup kvs "choices" with
    | some (.arr (c0 :: _)) =>
      match c0 with
      | .obj m =>
        match pyLookup m "message" with
        | some (.obj mm) =>
          match pyLookup mm "content" with
          | some (.str s) => s
          | _ => "[Groq API: No response text found]"
        | _ => "[Groq API: No response text found]"
      | _ => "[Groq API: No response text found]"
    | _ => "[Groq API: No response text found]"
  | _ => "[Groq API: No response text found]"

/-- `GroqIntegration.get_response`: a raised transport exception
propagates (`Except.error`); a 200 response yields the extracted reply; any
other status is converted into a bracketed error STRING returned as a
normal reply.  The conversation-history bookkeeping affects only the
request payload, which is abstracted into the outcome parameter. -/
def get_response (o : GroqOutcome) : Except String String :=
  match o with
  | .exn m => .error m
  | .resp status body text =>
    if status == 200 then .ok (extractContent body)
    else .ok ("[Groq API Error " ++ toString status ++ ": " ++ text ++ "]")

/-! ## Serialization for the follow-up prompt (model of `json.dumps`) -/

/-- Comma-join of already serialized fragments. -/
def joinComma : List String → String
  | [] => ""
  | [s] => s
  | s :: ss => s ++ ", " ++ joinComma ss

/-- Compact serialization of a JSON value, the model of `json.dumps` (the
source passes `indent=2`; the whitespace layout is abstracted, no claim
reads it). -/
def jsonDumps : JsonVal → String
  | .null => "null"
  | .bool true => "true"
  | .bool false => "false"
  | .num q => toString q.num
  | .str s => "\"" ++ s ++ "\""
  | .arr xs => "[" ++ joinComma (xs.attach.map (fun a => jsonDumps a.1)) ++ "]"
  | .obj kvs =>
    "\x7b" ++
      joinComma (kvs.attach.map (fun p => "\"" ++ p.1.1 ++ "\": " ++ jsonDumps p.1.2)) ++
      "\x7d"
  decreasing_by
  · have h1 := List.sizeOf_lt_of_mem a.2
    simp only [JsonVal.arr.sizeOf_spec]
    omega
  · obtain ⟨⟨k, v⟩, hp⟩ := p
    have h1 := List.sizeOf_lt_of_mem hp
    simp only [JsonVal.obj.sizeOf_spec, Prod.mk.sizeOf_spec] at *
    omega

/-- The follow-up prompt of `gemini_chat` (src/mcp_server.py lines
252-256). -/
def followUpPrompt (tool_name : JsonVal) (tool_result : JsonVal)
    (user_prompt : String) : String :=
  "The tool '" ++ pyStr tool_name ++ "' returned the following result:\n\n"
    ++ jsonDumps tool_result
    ++ "\n\nBased on this result and the user's original request: \""
    ++ user_prompt
    ++ "\", please provide a helpful response to the user."

/-! ## The per-turn orchestrator (`gemini_chat`, src/mcp_server.py 209-264) -/

/-- Observable events of one turn: an invocation of the model collaborator
(with the prompt it was handed) or a tool dispatch. -/
inductive TurnEvent where
  | modelCall (prompt : String)
  | toolDispatch (name : JsonVal)
  deriving Repr

/-- The endpoint's reply payload: the reply text, plus, exactly when a tool
ran, the `tool_used` and `tool_result` fields. -/
structure FinalReply where
  reply : String
  tool_used : Option JsonVal
  tool_result : Option JsonVal
  deriving Repr

/-- One turn of `gemini_chat`.  The two potential model invocations are
given by their transport outcomes `o1`, `o2`; `http` is the tool
collaborators' transport.  Returns the event trace alongside the outcome:
an uncaught exception from either model call aborts the turn
(`Except.error`).  The follow-up reply is returned verbatim — it is never
fed back to `parse_tool_call`. -/
def gemini_chat (o1 o2 : GroqOutcome) (http : Request → Except String JsonVal)
    (user_prompt : String) : List TurnEvent × Except String FinalReply :=
  match get_response o1 with
  | .error m => ([.modelCall user_prompt], .error m)
  | .ok response =>
    match parse_tool_call response with
    | none => ([.modelCall user_prompt], .ok ⟨response, none, none⟩)
    | some d =>
      let tool_name := pyGet d "tool" (.str "")
      let parameters := pyGet d "parameters" (.obj [])
      let tool_result := execute_tool http tool_name parameters
      let follow_up := followUpPrompt tool_name tool_result user_prompt
      match get_response o2 with
      | .error m =>
        ([.modelCall user_prompt, .toolDispatch tool_name, .modelCall follow_up], .error m)
      | .ok final =>
        ([.modelCall user_prompt, .toolDispatch tool_name, .modelCall follow_up],
         .ok ⟨final, some tool_name, some tool_result⟩)

/-! ## Process supervisor (src/tools/tools_app.py lines 39-112)

The module-level state is the global handle `WHATSAPP_PROC` and the counter
`RESTART_COUNT`; the OS contributes the set of live processes.  `SupWorld`
carries all three (plus a fresh-pid supply), so the Python functions become
state transformers. -/

/-- The supervisor-visible world: the tracked handle (pid of the Popen
object held in `WHATSAPP_PROC`, `none` when the global is `None`), the pids
of currently live listener processes, a fresh-pid supply and
`RESTART_COUNT`. -/
structure SupWorld where
  tracked : Option Nat
  live : List Nat
  next_pid : Nat
  restart_count : Nat
  deriving Repr, DecidableEq

/-- `WHATSAPP_PROC and WHATSAPP_PROC.poll() is None`: a process is tracked
and that process is live. -/
def trackedAlive (w : SupWorld) : Bool :=
  match w.tracked with
  | some p => w.live.contains p
  | none => false

/-- `start_whatsapp_listener()` run without interleaving: the early return
when a live instance is tracked, else the spawn.  `spawnOk = false` covers
the `index.js`-missing early return and a raised `Popen` failure, both of
which leave every piece of state unchanged (the exception is caught and
logged).  A successful spawn records the new pid in the global; the
restart counter is never touched here. -/
def start_whatsapp_listener (spawnOk : Bool) (w : SupWorld) : SupWorld :=
  if trackedAlive w then w
  else if spawnOk then
    { w with tracked := some w.next_pid, live := w.next_pid :: w.live,
             next_pid := w.next_pid + 1 }
  else w

/-- The atomic steps of `start_whatsapp_listener` for the interleaved
model: the liveness check (whose early return abandons the rest of the
call) and the spawn-and-assign.  The source takes no lock between them. -/
inductive StartStep where
  | checkAlive
  | spawn (ok : Bool)
  deriving Repr, DecidableEq

/-- The step list of one `start()` call. -/
def startSteps : List StartStep :=
  [.checkAlive, .spawn true]

/-- Execute one atomic step of a thread; returns the new world and the
thread's remaining steps. -/
def runStep (w : SupWorld) : StartStep → List StartStep → SupWorld × List StartStep
  | .checkAlive, rest => if trackedAlive w then (w, []) else (w, rest)
  | .spawn ok, rest =>
    if ok then
      ({ w with tracked := some w.next_pid, live := w.next_pid :: w.live,
                next_pid := w.next_pid + 1 }, rest)
    else (w, rest)

/-- Run two concurrent `start()` threads under an explicit interleaving
schedule (`0` steps the first thread, anything else the second); schedule
entries against an exhausted thread are skipped. -/
def runSched (w : SupWorld) (t0 t1 : List StartStep) : List Nat → SupWorld
  | [] => w
  | i :: sched =>
    if i == 0 then
      match t0 with
      | [] => runSched w [] t1 sched
      | s :: rest =>
        let (w', t0') := runStep w s rest
        runSched w' t0' t1 sched
    else
      match t1 with
      | [] => runSched w t0 [] sched
      | s :: rest =>
        let (w', t1') := runStep w s rest
        runSched w' t0 t1' sched

/-- One iteration of the `_heartbeat_task` loop body (after the sleep):
non-blocking liveness check; alive → log only; dead → `start()`, then
increment `RESTART_COUNT` exactly when the handle now points at a live
process. -/
def heartbeat_tick (spawnOk : Bool) (w : SupWorld) : SupWorld :=
  if trackedAlive w then w
  else if trackedAlive (start_whatsapp_listener spawnOk w) then
    { start_whatsapp_listener spawnOk w with
        restart_count := (start_whatsapp_listener spawnOk w).restart_count + 1 }
  else start_whatsapp_listener spawnOk w

/-- The observable actions of `stop_whatsapp_listener`. -/
inductive StopAction where
  | terminate
  | waitGrace (seconds : Nat)
  | kill
  | logTimeout
  | clearTracked
  deriving Repr, DecidableEq

/-- `stop_whatsapp_listener()`: when a live process is tracked it is sent
graceful termination and waited on for up to 5 seconds
(`exitsWithinGrace = false` is the `wait` timing out: the raised
`TimeoutExpired` is caught and logged).  In every case the global handle is
then cleared. -/
def stop_whatsapp_listener (w : SupWorld) (exitsWithinGrace : Bool) :
    SupWorld × List StopAction :=
  match w.tracked with
  | some p =>
    if w.live.contains p then
      if exitsWithinGrace then
        ({ w with tracked := none, live := w.live.filter (fun q => q != p) },
         [.terminate, .waitGrace 5, .clearTracked])
      else
        ({ w with tracked := none }, [.terminate, .waitGrace 5, .logTimeout, .clearTracked])
    else ({ w with tracked := none }, [.clearTracked])
  | none => ({ w with tracked := none }, [.clearTracked])

/-- The events of a supervisor lifetime: heartbeat ticks, ad-hoc `start()`
calls (issued e.g. by the `/whatsapp` endpoint) and `stop()` calls. -/
inductive SupEvent where
  | tick (spawnOk : Bool)
  | startCall (spawnOk : Bool)
  | stopCall (exitsWithinGrace : Bool)
  deriving Repr, DecidableEq

/-- Apply one lifetime event. -/
def applyEvent (w : SupWorld) : SupEvent → SupWorld
  | .tick ok => heartbeat_tick ok w
  | .startCall ok => start_whatsapp_listener ok w
  | .stopCall g => (stop_whatsapp_listener w g).1

/-- Fold a lifetime's events over the world. -/
def runEvents (w : SupWorld) : List SupEvent → SupWorld
  | [] => w
  | e :: evs => runEvents (applyEvent w e) evs

/-! ## Weather endpoint (`get_weather`, src/tools/tools_app.py 165-203) -/

/-- The arguments the endpoint hands to the weather collaborator
(`get_weather_forecast` or `WeatherFetcher.get_weather_by_location`). -/
structure WeatherBackendCall where
  city : String
  forecast_days : Int
  formattedText : Bool
  deriving Repr, DecidableEq

/-- `get_weather(city, days, formatted)`: clamps `days` into `[1, 7]`, then
either renders the forecast text (`formatted`) or returns the structured
payload, converting a collaborator error dict into an HTTP 404.  The
collaborators are the function parameters; the call made to them is
returned alongside the response so the embedding exposes exactly what was
requested. -/
def get_weather (forecastText : String → Int → String)
    (fetchData : String → Int → JsonVal)
    (city : String) (days : Int) (formatted : Bool) :
    WeatherBackendCall × Except (Nat × JsonVal) JsonVal :=
  let days := max 1 (min days 7)
  if formatted then
    (⟨city, days, true⟩,
     .ok (.obj [("city", .str city), ("days", .num (mkRat days 1)),
                ("formatted", .bool true), ("text", .str (forecastText city days))]))
  else
    let data := fetchData city days
    match data with
    | .obj kvs =>
      if pyTruthy (pyGet kvs "error" .null) then
        (⟨city, days, false⟩, .error (404, pyGet kvs "error" .null))
      else (⟨city, days, false⟩, .ok data)
    | _ => (⟨city, days, false⟩, .ok data)

/-! ## Shared helper lemmas -/

/-- `start()` never touches the restart counter. -/
theorem start_restart_count (b : Bool) (w : SupWorld) :
    (start_whatsapp_listener b w).restart_count = w.restart_count := by
  unfold start_whatsapp_listener
  split_ifs <;> rfl

/-- `start()` while a live instance is tracked is a no-op. -/
theorem start_alive_noop (b : Bool) (w : SupWorld) (h : trackedAlive w = true) :
    start_whatsapp_listener b w = w := by
  unfold start_whatsapp_listener
  simp [h]

/-- A successful spawn from a dead world tracks the fresh pid and adds one
live process. -/
theorem start_dead_spawn (w : SupWorld) (h : trackedAlive w = false) :
    start_whatsapp_listener true w =
      { w with tracked := some w.next_pid, live := w.next_pid :: w.live,
               next_pid := w.next_pid + 1 } := by
  unfold start_whatsapp_listener
  simp [h]

/-- After a successful spawn the tracked process is alive. -/
theorem start_dead_spawn_alive (w : SupWorld) (h : trackedAlive w = false) :
    trackedAlive (start_whatsapp_listener true w) = true := by
  rw [start_dead_spawn w h]
  simp [trackedAlive]

/-- No single lifetime event decreases the restart counter. -/
theorem applyEvent_restart_mono (e : SupEvent) (w : SupWorld) :
    w.restart_count ≤ (applyEvent w e).restart_count := by
  cases e with
  | tick ok =>
    show w.restart_count ≤ (heartbeat_tick ok w).restart_count
    unfold heartbeat_tick
    split_ifs with h1 h2
    · exact le_refl _
    · show w.restart_count ≤ (start_whatsapp_listener ok w).restart_count + 1
      rw [start_restart_count]
      omega
    · rw [start_restart_count]
  | startCall ok =>
    show w.restart_count ≤ (start_whatsapp_listener ok w).restart_count
    rw [start_restart_count]
  | stopCall g =>
    show w.restart_count ≤ (stop_whatsapp_listener w g).1.restart_count
    unfold stop_whatsapp_listener
    cases w.tracked <;> simp <;> split_ifs <;> rfl

/-- The restart counter never decreases along a lifetime. -/
theorem runEvents_restart_mono (evs : List SupEvent) (w : SupWorld) :
    w.restart_count ≤ (runEvents w evs).restart_count := by
  induction evs generalizing w with
  | nil => exact le_refl _
  | cons e evs ih =>
    exact le_trans (applyEvent_restart_mono e w) (ih (applyEvent w e))

/-! ## Claim C10 -/

/-- C10: for every integer `days` given to the weather endpoint, the
collaborator is invoked with `days` clamped to `max 1 (min days 7)` — hence
always within `[1, 7]` — while `city` is passed through unchanged, and
out-of-range values are clamped rather than rejected (the formatted path
succeeds for every `days`). -/
theorem weather_days_clamped (ft : String → Int → String)
    (fd : String → Int → JsonVal) (city : String) (days : Int) (formatted : Bool) :
    (get_weather ft fd city days formatted).1.city = city ∧
    (get_weather ft fd city days formatted).1.forecast_days = max 1 (min days 7) ∧
    1 ≤ (get_weather ft fd city days formatted).1.forecast_days ∧
    (get_weather ft fd city days formatted).1.forecast_days ≤ 7 ∧
    (get_weather ft fd city days true).2 =
      .ok (.obj [("city", .str city), ("days", .num (mkRat (max 1 (min days 7)) 1)),
                 ("formatted", .bool true),
                 ("text", .str (ft city (max 1 (min days 7))))]) := by
  have hcall : (get_weather ft fd city days formatted).1 =
      ⟨city, max 1 (min days 7), formatted⟩ := by
    unfold get_weather
    cases hb : formatted with
    | true => simp
    | false =>
      simp only [Bool.false_eq_true, if_false]
      cases hd : fd city (max 1 (min days 7)) <;> simp only [] <;>
        first
          | rfl
          | (split_ifs <;> rfl)
  refine ⟨by rw [hcall], by rw [hcall], ?_, ?_, ?_⟩
  · rw [hcall]
    exact le_max_left 1 _
  · rw [hcall]
    exact max_le (by norm_num) (min_le_right days 7)
  · unfold get_weather
    simp

/-! ## Claim C5 -/

/-- A world with no process at all: `WHATSAPP_PROC is None`, nothing live. -/
def raceWorld : SupWorld := ⟨none, [], 1, 0⟩

/-- C5 counterexample: two concurrent `start()` calls against an absent
process, interleaved so both liveness checks run before either spawn
(schedule 0,1,0,1), leave TWO live listener processes — the source takes no
mutex between the check and the spawn, so "at most one live companion
process ever exists" fails. -/
theorem concurrent_start_two_live_processes :
    (runSched raceWorld startSteps startSteps [0, 1, 0, 1]).live.length = 2 ∧
    (runSched raceWorld startSteps startSteps [0, 1, 0, 1]).restart_count = 0 := by
  decide

/-- C5 amended: `start_whatsapp_listener` has no lock, so only
non-interleaved calls collapse: any `n + 1` successive (atomic) `start()`
calls against a dead process yield exactly one new live process, tracked
under one pid, and the restart counter is never touched by `start()`. -/
theorem sequential_start_converges (n : Nat) (b : Bool) (w : SupWorld)
    (hdead : trackedAlive w = false) :
    trackedAlive ((start_whatsapp_listener true)^[n + 1] w) = true ∧
    ((start_whatsapp_listener true)^[n + 1] w).tracked = some w.next_pid ∧
    ((start_whatsapp_listener true)^[n + 1] w).live.length = w.live.length + 1 ∧
    ((start_whatsapp_listener true)^[n + 1] w).restart_count = w.restart_count ∧
    (start_whatsapp_listener b w).restart_count = w.restart_count := by
  have halive : trackedAlive (start_whatsapp_listener true w) = true :=
    start_dead_spawn_alive w hdead
  have hiter : (start_whatsapp_listener true)^[n + 1] w =
      start_whatsapp_listener true w := by
    rw [Function.iterate_succ_apply]
    exact Function.iterate_fixed (start_alive_noop true _ halive) n
  rw [hiter, start_dead_spawn w hdead]
  refine ⟨?_, rfl, ?_, rfl, start_restart_count b w⟩
  · simp [trackedAlive]
  · simp

/-- Witness for the amended C5 statement at a concrete dead world. -/
theorem sequential_start_converges_witness :
    trackedAlive ((start_whatsapp_listener true)^[3] raceWorld) = true ∧
    ((start_whatsapp_listener true)^[3] raceWorld).tracked = some 1 ∧
    ((start_whatsapp_listener true)^[3] raceWorld).live.length = 0 + 1 ∧
    ((start_whatsapp_listener true)^[3] raceWorld).restart_count = 0 ∧
    (start_whatsapp_listener false raceWorld).restart_count = 0 :=
  sequential_start_converges 2 false raceWorld rfl

/-! ## Claim C6 -/

/-- C6: on a heartbeat tick the restart counter moves by exactly +1 when
the tick sees the tracked process dead and the relaunch leaves a live
tracked process, and by 0 when the process was alive or the relaunch
failed; the counter is non-decreasing over any lifetime of ticks, start and
stop calls; and `start()` on a live instance changes nothing. -/
theorem heartbeat_restart_semantics :
    (∀ b w, trackedAlive w = true → heartbeat_tick b w = w) ∧
    (∀ b w, trackedAlive w = false →
      trackedAlive (start_whatsapp_listener b w) = true →
      (heartbeat_tick b w).restart_count = w.restart_count + 1) ∧
    (∀ b w, trackedAlive w = false →
      trackedAlive (start_whatsapp_listener b w) = false →
      (heartbeat_tick b w).restart_count = w.restart_count) ∧
    (∀ evs w, w.restart_count ≤ (runEvents w evs).restart_count) ∧
    (∀ b w, trackedAlive w = true →
      (start_whatsapp_listener b w).restart_count = w.restart_count ∧
      start_whatsapp_listener b w = w) := by
  refine ⟨?_, ?_, ?_, runEvents_restart_mono, ?_⟩
  · intro b w h
    unfold heartbeat_tick
    simp [h]
  · intro b w h1 h2
    unfold heartbeat_tick
    simp [h1, h2, start_restart_count]
  · intro b w h1 h2
    unfold heartbeat_tick
    simp [h1, h2, start_restart_count]
  · intro b w h
    exact ⟨start_restart_count b w, start_alive_noop b w h⟩

/-- A world tracking a live process (pid 5), with some restart history. -/
def aliveWorld : SupWorld := ⟨some 5, [5], 6, 3⟩

/-- Witness for C6 at concrete worlds: an alive tick is a no-op, a dead
tick with successful relaunch adds exactly one, a dead tick with failed
relaunch adds nothing, and `start()` while running changes nothing. -/
theorem heartbeat_restart_semantics_witness :
    heartbeat_tick true aliveWorld = aliveWorld ∧
    (heartbeat_tick true raceWorld).restart_count = 0 + 1 ∧
    (heartbeat_tick false raceWorld).restart_count = 0 ∧
    (start_whatsapp_listener true aliveWorld).restart_count = 3 ∧
    start_whatsapp_listener true aliveWorld = aliveWorld :=
  ⟨heartbeat_restart_semantics.1 true aliveWorld rfl,
   heartbeat_restart_semantics.2.1 true raceWorld rfl rfl,
   heartbeat_restart_semantics.2.2.1 false raceWorld rfl rfl,
   (heartbeat_restart_semantics.2.2.2.2 true aliveWorld rfl).1,
   (heartbeat_restart_semantics.2.2.2.2 true aliveWorld rfl).2⟩

/-! ## Claim C7 -/

/-- A world tracking a live process (pid 7) that ignores SIGTERM. -/
def stuckWorld : SupWorld := ⟨some 7, [7], 8, 0⟩

/-- C7 counterexample: when the tracked process survives the 5-second
grace period, `stop_whatsapp_listener` does NOT force-kill it — the
`TimeoutExpired` is merely logged, the handle is cleared, and the process
is still live afterwards. -/
theorem stop_timeout_no_kill :
    (stop_whatsapp_listener stuckWorld false).1.tracked = none ∧
    (stop_whatsapp_listener stuckWorld false).1.live = [7] ∧
    StopAction.kill ∉ (stop_whatsapp_listener stuckWorld false).2 := by
  refine ⟨rfl, rfl, ?_⟩
  decide

/-- C7 amended: `stop()` on a running tracked process sends graceful
termination and waits up to the 5-second grace; it never force-kills.  The
tracked state is always cleared; the process disappears from the live set
only when it exited within the grace period, and survives untouched when
the wait timed out. -/
theorem stop_graceful_no_force_kill (w : SupWorld) (p : Nat) (g : Bool)
    (hp : w.tracked = some p) (hl : w.live.contains p = true) :
    (stop_whatsapp_listener w g).2 =
      [.terminate, .waitGrace 5] ++ (if g then [] else [.logTimeout]) ++ [.clearTracked] ∧
    StopAction.kill ∉ (stop_whatsapp_listener w g).2 ∧
    (stop_whatsapp_listener w g).1.tracked = none ∧
    (stop_whatsapp_listener w g).1.restart_count = w.restart_count ∧
    (g = true → (stop_whatsapp_listener w g).1.live = w.live.filter (fun q => q != p)) ∧
    (g = false → (stop_whatsapp_listener w g).1.live = w.live) := by
  unfold stop_whatsapp_listener
  rw [hp]
  simp only [hl, if_true]
  cases g <;> simp

/-- Witness for the amended C7 statement at the concrete stuck world. -/
theorem stop_graceful_no_force_kill_witness :
    (stop_whatsapp_listener stuckWorld false).2 =
      [.terminate, .waitGrace 5] ++ (if false then [] else [.logTimeout]) ++ [.clearTracked] ∧
    StopAction.kill ∉ (stop_whatsapp_listener stuckWorld false).2 ∧
    (stop_whatsapp_listener stuckWorld false).1.tracked = none ∧
    (stop_whatsapp_listener stuckWorld false).1.restart_count = 0 ∧
    (false = true → (stop_whatsapp_listener stuckWorld false).1.live =
      stuckWorld.live.filter (fun q => q != 7)) ∧
    (false = false → (stop_whatsapp_listener stuckWorld false).1.live = stuckWorld.live) :=
  stop_graceful_no_force_kill stuckWorld 7 false rfl rfl

/-! ## Claim C8 -/

/-- A collaborator transport that echoes back the query it was sent, so a
theorem can observe exactly which parameters the dispatcher filled in. -/
def reflectHttp : Request → Except String JsonVal :=
  fun req => .ok (.obj req.query)

/-- C8: parameter-default divergence.  For `get_weather_info` with
`formatted` absent, the dispatcher fills `days = 1` as declared but
`formatted = True`, although the registered schema (and the weather
endpoint itself) declare the default `False`; for `search` the filled
defaults `max_results = 3`, `formatted = True` do match the declaration
(`region` is filled too, although never declared). -/
theorem dispatch_default_divergence :
    execute_tool reflectHttp (.str "get_weather_info") (.obj [("city", .str "Tokyo")]) =
      .obj [("city", .str "Tokyo"), ("days", .num 1), ("formatted", .bool true)] ∧
    schemaDefault "get_weather_info" "formatted" = some (.bool false) ∧
    schemaDefault "get_weather_info" "days" = some (.num 1) ∧
    execute_tool reflectHttp (.str "search") (.obj [("query", .str "cats")]) =
      .obj [("query", .str "cats"), ("max_results", .num 3),
            ("formatted", .bool true), ("region", .str "us-en")] ∧
    schemaDefault "search" "max_results" = some (.num 3) ∧
    schemaDefault "search" "formatted" = some (.bool true) :=
  ⟨rfl, rfl, rfl, rfl, rfl, rfl⟩

/-! ## Claim C3 -/

/-- C3: `execute_tool` always returns a value (it is a total function into
`JsonVal`): an unregistered name yields the "Unknown tool" error payload; a
missing required parameter yields the required-parameter error payload
(`city` for `get_weather_info`, `query` for `search`); and a transport
failure or raised exception during a collaborator call comes back as the
"Tool execution failed" error payload instead of propagating. -/
theorem dispatch_total_and_error_values :
    (∀ http (s : String) params, s ∉ registeredToolNames →
      execute_tool http (.str s) params =
        .obj [("error", .str ("Unknown tool: " ++ s))]) ∧
    (∀ http pkvs, pyLookup pkvs "city" = none →
      execute_tool http (.str "get_weather_info") (.obj pkvs) =
        .obj [("error", .str "City parameter is required for weather info")]) ∧
    (∀ http pkvs, pyLookup pkvs "query" = none →
      execute_tool http (.str "search") (.obj pkvs) =
        .obj [("error", .str "Query parameter is required for search")]) ∧
    (∀ (e : String) params (name : String),
      name ∈ (["get_gmail", "get_outlook", "get_tasks", "get_calendar_events",
                "get_whatsapp_messages"] : List String) →
      execute_tool (fun _ => .error e) (.str name) params =
        .obj [("error", .str ("Tool execution failed: " ++ e))]) ∧
    (∀ e : String,
      execute_tool (fun _ => .error e) (.str "get_weather_info")
          (.obj [("city", .str "Tokyo")]) =
        .obj [("error", .str ("Tool execution failed: " ++ e))]) := by
  refine ⟨?_, ?_, ?_, ?_, fun e => rfl⟩
  · intro http s params h
    simp only [registeredToolNames, List.mem_cons, List.not_mem_nil, or_false,
      not_or] at h
    obtain ⟨h1, h2, h3, h4, h5, h6, h7⟩ := h
    simp [execute_tool, execute_tool_core, jsonEqStr, pyStr, pure, Except.pure,
      h1, h2, h3, h4, h5, h6, h7]
  · intro http pkvs h
    have hget : pyGet pkvs "city" JsonVal.null = .null := by simp [pyGet, h]
    simp [execute_tool, execute_tool_core, jsonEqStr, hget, pyTruthy, asObj,
      bind, Except.bind, pure, Except.pure]
  · intro http pkvs h
    have hget : pyGet pkvs "query" JsonVal.null = .null := by simp [pyGet, h]
    simp [execute_tool, execute_tool_core, jsonEqStr, hget, pyTruthy, asObj,
      bind, Except.bind, pure, Except.pure]
  · intro e params name hname
    simp only [List.mem_cons, List.not_mem_nil, or_false] at hname
    rcases hname with rfl | rfl | rfl | rfl | rfl
    · rfl
    · rfl
    · rfl
    · rfl
    · rfl

/-- Witness for C3 at concrete inputs: an unregistered name, the two
missing-required-parameter dispatches (including the spec's
`dispatch(ToolCall(get_weather_info, fn))` example with empty parameters),
and a failing transport. -/
theorem dispatch_total_and_error_values_witness :
    execute_tool reflectHttp (.str "frobnicate") .null =
      .obj [("error", .str ("Unknown tool: " ++ "frobnicate"))] ∧
    execute_tool reflectHttp (.str "get_weather_info") (.obj []) =
      .obj [("error", .str "City parameter is required for weather info")] ∧
    execute_tool reflectHttp (.str "search") (.obj []) =
      .obj [("error", .str "Query parameter is required for search")] ∧
    execute_tool (fun _ => .error "connection reset") (.str "get_gmail") .null =
      .obj [("error", .str ("Tool execution failed: " ++ "connection reset"))] ∧
    execute_tool (fun _ => .error "connection reset") (.str "get_weather_info")
        (.obj [("city", .str "Tokyo")]) =
      .obj [("error", .str ("Tool execution failed: " ++ "connection reset"))] :=
  ⟨dispatch_total_and_error_values.1 reflectHttp "frobnicate" .null (by decide),
   dispatch_total_and_error_values.2.1 reflectHttp [] rfl,
   dispatch_total_and_error_values.2.2.1 reflectHttp [] rfl,
   dispatch_total_and_error_values.2.2.2.1 "connection reset" .null "get_gmail"
     (by decide),
   dispatch_total_and_error_values.2.2.2.2 "connection reset"⟩

/-! ## Claim C2 -/

/-- C2: `parse_tool_call` is total and returns `some` exactly when the
stripped (and fence-unwrapped) text strictly decodes to a JSON object
containing a "tool" key, in which case the decoded mapping is returned;
the spec's worked example parses to the expected tool call, and plain
prose yields `none`. -/
theorem parse_total_and_exact :
    (∀ s : String, parse_tool_call s = none ∨
      ∃ kvs, parse_tool_call s = some kvs ∧
        jsonDecode ⟨preprocessResponse s.data⟩ = some (.obj kvs) ∧
        hasKey kvs "tool" = true) ∧
    (∀ (s : String) kvs,
      jsonDecode ⟨preprocessResponse s.data⟩ = some (.obj kvs) →
      hasKey kvs "tool" = true → parse_tool_call s = some kvs) ∧
    parse_tool_call
        "\x7b\"tool\":\"get_weather_info\",\"parameters\":\x7b\"city\":\"Tokyo\"\x7d\x7d" =
      some [("tool", .str "get_weather_info"),
            ("parameters", .obj [("city", .str "Tokyo")])] ∧
    parse_tool_call "I think it's sunny today!" = none := by
  refine ⟨?_, ?_, rfl, rfl⟩
  · intro s
    unfold parse_tool_call
    cases hd : jsonDecode ⟨preprocessResponse s.data⟩ with
    | none => exact Or.inl rfl
    | some v =>
      cases v with
      | obj kvs =>
        cases hk : hasKey kvs "tool" with
        | false => exact Or.inl (by simp [hk])
        | true => exact Or.inr ⟨kvs, by simp [hk], rfl, hk⟩
      | null => exact Or.inl rfl
      | bool b => exact Or.inl rfl
      | num q => exact Or.inl rfl
      | str t => exact Or.inl rfl
      | arr xs => exact Or.inl rfl
  · intro s kvs h1 h2
    unfold parse_tool_call
    rw [h1]
    simp [h2]

/-- Witness for C2's exactness clause at a concrete input whose decoded
object carries a "tool" key. -/
theorem parse_total_and_exact_witness :
    parse_tool_call "\x7b\"tool\": null\x7d" = some [("tool", JsonVal.null)] :=
  parse_total_and_exact.2.1 "\x7b\"tool\": null\x7d" [("tool", JsonVal.null)] rfl rfl

/-! ## Claim C4 -/

/-- C4 counterexample: the model invocation carries NO timeout — the
`requests.post` in `get_response` is issued without a `timeout` argument —
and a failing HTTP status is not surfaced as an error but converted into a
bracketed string returned as a normal reply. -/
theorem model_call_no_timeout :
    groq_post_call.timeoutSeconds = none ∧
    get_response (.resp 500 .null "boom") = .ok "[Groq API Error 500: boom]" :=
  ⟨rfl, rfl⟩

/-- C4 amended: a raised transport exception in either model invocation
aborts the whole turn and propagates to the caller with no retry (the
trace shows the single attempt); but the invocation carries no timeout, and
a non-200 HTTP status is degraded to a bracketed error string returned as
an ordinary reply. -/
theorem model_failure_aborts_turn (m : String) (o2 : GroqOutcome)
    (http : Request → Except String JsonVal) (up : String) :
    get_response (.exn m) = .error m ∧
    gemini_chat (.exn m) o2 http up = ([.modelCall up], .error m) ∧
    groq_post_call.timeoutSeconds = none ∧
    (∀ o1 raw d, get_response o1 = .ok raw → parse_tool_call raw = some d →
      (gemini_chat o1 (.exn m) http up).2 = .error m) ∧
    (∀ (status : Nat) (body : JsonVal) (text : String), status ≠ 200 →
      get_response (.resp status body text) =
        .ok ("[Groq API Error " ++ toString status ++ ": " ++ text ++ "]")) := by
  refine ⟨rfl, rfl, rfl, ?_, ?_⟩
  · intro o1 raw d h1 h2
    simp only [gemini_chat]
    rw [h1]
    simp [h2, get_response]
  · intro status body text h
    simp [get_response, h]

/-- A model outcome whose 200 body carries a JSON tool call as its
content. -/
def nullToolOutcome : GroqOutcome :=
  .resp 200
    (.obj [("choices", .arr [.obj [("message",
      .obj [("content", .str "\x7b\"tool\": null\x7d")])]])]) ""

/-- Witness for the amended C4 statement: concrete aborted turns and a
concrete degraded HTTP failure. -/
theorem model_failure_aborts_turn_witness :
    get_response (.exn "socket closed") = .error "socket closed" ∧
    gemini_chat (.exn "socket closed") nullToolOutcome reflectHttp "hi" =
      ([.modelCall "hi"], .error "socket closed") ∧
    (gemini_chat nullToolOutcome (.exn "socket closed") reflectHttp "hi").2 =
      .error "socket closed" ∧
    get_response (.resp 404 .null "nope") =
      .ok ("[Groq API Error " ++ toString 404 ++ ": " ++ "nope" ++ "]") :=
  ⟨(model_failure_aborts_turn "socket closed" nullToolOutcome reflectHttp "hi").1,
   (model_failure_aborts_turn "socket closed" nullToolOutcome reflectHttp "hi").2.1,
   (model_failure_aborts_turn "socket closed" nullToolOutcome reflectHttp "hi").2.2.2.1
     nullToolOutcome "\x7b\"tool\": null\x7d" [("tool", JsonVal.null)] rfl rfl,
   (model_failure_aborts_turn "socket closed" nullToolOutcome reflectHttp "hi").2.2.2.2
     404 .null "nope" (by decide)⟩

/-! ## Claim C1 -/

/-- C1: in every turn whose first model call succeeds, when parsing yields
no tool call the raw model text is returned verbatim with no tool fields
after exactly one model invocation; when parsing yields a tool call,
exactly one tool dispatch and one follow-up model invocation happen (the
trace is fixed at `[modelCall, toolDispatch, modelCall]` — so the follow-up
reply is never re-parsed for a further dispatch, whatever it contains) and
the reply is the second model text with `tool_used` the parsed name and
`tool_result` the dispatch result. -/
theorem turn_single_tool_hop (o1 o2 : GroqOutcome)
    (http : Request → Except String JsonVal) (up raw : String)
    (hraw : get_response o1 = .ok raw) :
    (parse_tool_call raw = none →
      gemini_chat o1 o2 http up = ([.modelCall up], .ok ⟨raw, none, none⟩)) ∧
    (∀ d (final : String), parse_tool_call raw = some d →
      get_response o2 = .ok final →
      gemini_chat o1 o2 http up =
        ([.modelCall up,
          .toolDispatch (pyGet d "tool" (.str "")),
          .modelCall (followUpPrompt (pyGet d "tool" (.str ""))
            (execute_tool http (pyGet d "tool" (.str ""))
              (pyGet d "parameters" (.obj []))) up)],
         .ok ⟨final, some (pyGet d "tool" (.str "")),
              some (execute_tool http (pyGet d "tool" (.str ""))
                (pyGet d "parameters" (.obj [])))⟩)) := by
  constructor
  · intro hnone
    simp only [gemini_chat]
    rw [hraw]
    simp [hnone]
  · intro d final hsome hfinal
    simp only [gemini_chat]
    rw [hraw]
    simp [hsome, hfinal]

/-- A model outcome whose 200 body carries the worked weather tool call. -/
def weatherToolOutcome : GroqOutcome :=
  .resp 200
    (.obj [("choices", .arr [.obj [("message",
      .obj [("content",
        .str "\x7b\"tool\":\"get_weather_info\",\"parameters\":\x7b\"city\":\"Tokyo\"\x7d\x7d")])]])])
    ""

/-- A model outcome whose 200 body carries plain prose. -/
def proseOutcome : GroqOutcome :=
  .resp 200
    (.obj [("choices", .arr [.obj [("message",
      .obj [("content", .str "I think it's sunny today!")])]])]) ""

/-- A model outcome whose 200 body carries the follow-up summary text. -/
def summaryOutcome : GroqOutcome :=
  .resp 200
    (.obj [("choices", .arr [.obj [("message",
      .obj [("content", .str "Sunny in Tokyo.")])]])]) ""

/-- Witness for C1 at concrete turns: a plain-prose first reply comes back
verbatim with no tool fields, and a weather tool call makes exactly one
dispatch and one follow-up call. -/
theorem turn_single_tool_hop_witness :
    gemini_chat proseOutcome summaryOutcome reflectHttp "weather?" =
      ([.modelCall "weather?"], .ok ⟨"I think it's sunny today!", none, none⟩) ∧
    gemini_chat weatherToolOutcome summaryOutcome reflectHttp "weather?" =
      ([.modelCall "weather?",
        .toolDispatch (pyGet [("tool", .str "get_weather_info"),
          ("parameters", .obj [("city", .str "Tokyo")])] "tool" (.str "")),
        .modelCall (followUpPrompt
          (pyGet [("tool", .str "get_weather_info"),
            ("parameters", .obj [("city", .str "Tokyo")])] "tool" (.str ""))
          (execute_tool reflectHttp
            (pyGet [("tool", .str "get_weather_info"),
              ("parameters", .obj [("city", .str "Tokyo")])] "tool" (.str ""))
            (pyGet [("tool", .str "get_weather_info"),
              ("parameters", .obj [("city", .str "Tokyo")])] "parameters" (.obj [])))
          "weather?")],
       .ok ⟨"Sunny in Tokyo.",
            some (pyGet [("tool", .str "get_weather_info"),
              ("parameters", .obj [("city", .str "Tokyo")])] "tool" (.str "")),
            some (execute_tool reflectHttp
              (pyGet [("tool", .str "get_weather_info"),
                ("parameters", .obj [("city", .str "Tokyo")])] "tool" (.str ""))
              (pyGet [("tool", .str "get_weather_info"),
                ("parameters", .obj [("city", .str "Tokyo")])] "parameters" (.obj [])))⟩) :=
  ⟨(turn_single_tool_hop proseOutcome summaryOutcome reflectHttp "weather?"
      "I think it's sunny today!" rfl).1 rfl,
   (turn_single_tool_hop weatherToolOutcome summaryOutcome reflectHttp "weather?"
      "\x7b\"tool\":\"get_weather_info\",\"parameters\":\x7b\"city\":\"Tokyo\"\x7d\x7d" rfl).2
     [("tool", .str "get_weather_info"), ("parameters", .obj [("city", .str "Tokyo")])]
     "Sunny in Tokyo." rfl rfl⟩

/-! ## Claim C9 -/

/-- Remove one key from a decoded object (used to express that a field is
never read). -/
def eraseKey (k : String) (kvs : List (String × JsonVal)) : List (String × JsonVal) :=
  kvs.filter (fun p => p.1 != k)

/-- Remove the "body" field of a mail item. -/
def eraseBodyMail : JsonVal → JsonVal
  | .obj kvs => .obj (eraseKey "body" kvs)
  | v => v

/-- Dropping entries for one key does not change `find?` for a different
key. -/
theorem find?_filter_ne (k k' : String) (h : k' ≠ k)
    (l : List (String × JsonVal)) :
    (l.filter (fun p => p.1 != k)).find? (fun p => p.1 == k') =
      l.find? (fun p => p.1 == k') := by
  induction l with
  | nil => rfl
  | cons p l ih =>
    cases hpk : (p.1 == k') with
    | true =>
      have hpe : p.1 = k' := eq_of_beq hpk
      have h1 : (p.1 != k) = true := by simp [hpe, h]
      simp [List.filter_cons, h1, List.find?_cons, hpk]
    | false =>
      cases hbk : (p.1 != k) with
      | true => simp [List.filter_cons, hbk, List.find?_cons, hpk, ih]
      | false => simp [List.filter_cons, hbk, List.find?_cons, hpk, ih]

/-- Dropping one key does not change lookups of a different key. -/
theorem pyLookup_eraseKey (k k' : String) (h : k' ≠ k)
    (kvs : List (String × JsonVal)) :
    pyLookup (eraseKey k kvs) k' = pyLookup kvs k' := by
  unfold pyLookup eraseKey
  rw [← List.filter_reverse, find?_filter_ne k k' h]

/-- Dropping one key does not change `dict.get` of a different key. -/
theorem pyGet_eraseKey (k k' : String) (h : k' ≠ k)
    (kvs : List (String × JsonVal)) (d : JsonVal) :
    pyGet (eraseKey k kvs) k' d = pyGet kvs k' d := by
  unfold pyGet
  rw [pyLookup_eraseKey k k' h]

/-- The mail reduction never reads the "body" field. -/
theorem filterMail_eraseBody (m : JsonVal) :
    filterMail (eraseBodyMail m) = filterMail m := by
  cases m with
  | obj kvs =>
    show filterMail (.obj (eraseKey "body" kvs)) = filterMail (.obj kvs)
    simp only [filterMail]
    rw [pyGet_eraseKey "body" "subject" (by decide),
        pyGet_eraseKey "body" "title" (by decide),
        pyGet_eraseKey "body" "sender" (by decide),
        pyGet_eraseKey "body" "senderName" (by decide),
        pyGet_eraseKey "body" "from" (by decide)]
  | null => rfl
  | bool b => rfl
  | num q => rfl
  | str s => rfl
  | arr xs => rfl

/-- The filtering loop never reads any "body" field. -/
theorem filterMails_eraseBody (ms : List JsonVal) :
    filterMails (ms.map eraseBodyMail) = filterMails ms := by
  induction ms with
  | nil => rfl
  | cons m ms ih =>
    show filterMails (eraseBodyMail m :: ms.map eraseBodyMail) = _
    unfold filterMails
    rw [filterMail_eraseBody, ih]

/-- An upstream inbox payload carrying body content. -/
def sampleInbox : JsonVal :=
  .obj [("emails", .arr
    [.obj [("subject", .str "Hi"), ("sender", .str "alice@example.com"),
           ("body", .str "CONFIDENTIAL BODY")],
     .obj [("title", .str "Offer"), ("from", .str "bob@example.com"),
           ("body", .str "ANOTHER BODY")]])]

/-- The same inbox as the dispatcher returns it. -/
def sampleFiltered : JsonVal :=
  .arr [.obj [("subject", .str "Hi"), ("sender", .str "alice@example.com")],
        .obj [("subject", .str "Offer"), ("sender", .str "bob@example.com")]]

/-- C9: every item the mail tools return consists of exactly the two
fields `subject` and `sender` (null when the source lacks the keys), the
output never depends on any "body" field, and the two concrete dispatches
through `get_gmail` and `get_outlook` drop the body content of the sample
inbox. -/
theorem mail_results_subject_sender_only :
    (∀ mails : List JsonVal, (∀ m ∈ mails, ∃ kvs, m = JsonVal.obj kvs) →
      ∃ out, filterEmails (.obj [("emails", .arr mails)]) = .ok out ∧
        out.length = mails.length ∧
        ∀ o ∈ out, ∃ s d, o = JsonVal.obj [("subject", s), ("sender", d)]) ∧
    (∀ mails : List JsonVal,
      filterEmails (.obj [("emails", .arr (mails.map eraseBodyMail))]) =
        filterEmails (.obj [("emails", .arr mails)])) ∧
    filterMail (.obj []) = .ok (.obj [("subject", .null), ("sender", .null)]) ∧
    execute_tool (fun _ => .ok sampleInbox) (.str "get_gmail") (.obj []) =
      sampleFiltered ∧
    execute_tool (fun _ => .ok sampleInbox) (.str "get_outlook") (.obj []) =
      sampleFiltered := by
  refine ⟨?_, ?_, rfl, rfl, rfl⟩
  · intro mails hall
    have : ∃ out, filterMails mails = .ok out ∧ out.length = mails.length ∧
        ∀ o ∈ out, ∃ s d, o = JsonVal.obj [("subject", s), ("sender", d)] := by
      induction mails with
      | nil => exact ⟨[], rfl, rfl, by simp⟩
      | cons m ms ih =>
        obtain ⟨kvs, rfl⟩ := hall m (List.mem_cons_self m ms)
        obtain ⟨out, hout, hlen, hshape⟩ :=
          ih (fun m hm => hall m (List.mem_cons_of_mem _ hm))
        refine ⟨.obj [("subject", pyOr (pyGet kvs "subject" .null) (pyGet kvs "title" .null)),
                 ("sender", pyOr (pyOr (pyGet kvs "sender" .null) (pyGet kvs "senderName" .null))
                   (pyGet kvs "from" .null))] :: out, ?_, by simp [hlen], ?_⟩
        · unfold filterMails
          simp [filterMail, hout, bind, Except.bind, pure, Except.pure]
        · intro o ho
          rcases List.mem_cons.mp ho with rfl | hmem
          · exact ⟨_, _, rfl⟩
          · exact hshape o hmem
    exact this
  · intro mails
    exact filterMails_eraseBody mails

/-- Witness for C9 at a concrete one-mail inbox whose item carries a body
field but no sender keys. -/
theorem mail_results_subject_sender_only_witness :
    ∃ out,
      filterEmails (.obj [("emails", .arr
        [.obj [("subject", .str "Ping"), ("body", .str "SECRET")]])]) = .ok out ∧
      out.length = 1 ∧
      ∀ o ∈ out, ∃ s d, o = JsonVal.obj [("subject", s), ("sender", d)] :=
  mail_results_subject_sender_only.1
    [.obj [("subject", .str "Ping"), ("body", .str "SECRET")]]
    (fun m hm => by
      rw [List.mem_singleton] at hm
      exact ⟨_, hm⟩)

end Anima
